import Mathlib

/-!
Shallow embedding of `src/employees.py` (refactored employee management
system): domain model, payment strategies, vacation policies, the strategy
factory, the operation log, and the two command executors.

Modelling conventions:
* Python `float` money amounts are modelled as `ℚ` (no claim depends on
  floating-point rounding); Python `int` values as `ℤ`.
* Python `Optional[...]` fields are `Option ...`; an operation that raises a
  Python exception is modelled with `Except PyError`.  Exception messages are
  abstracted away (`PyError.valueError` for `ValueError`, `PyError.typeError`
  for `TypeError`, e.g. arithmetic or comparison on `None`).
* The state mutated by a command (`self.employee.vacation_days`, the
  class-level `OperationLog._operations` list) is passed in and returned
  explicitly; raising before any mutation is modelled by returning `.error`
  together with the unchanged inputs being simply not returned.
* The free-text `details` strings built with f-string numeric interpolation
  are abstracted to their constant skeleton (no claim inspects them).
-/

namespace Employees

/-- Embeds `EmployeeType` enum from the source. -/
inductive EmployeeType where
  | salaried
  | hourly
  | freelancer
  deriving DecidableEq, Repr

/-- Embeds `Role` enum from the source (a closed enum with exactly three values). -/
inductive Role where
  | intern
  | manager
  | vice_president
  deriving DecidableEq, Repr

/-- Embeds `Project` dataclass: name, amount, delivered flag (default `False`). -/
structure Project where
  name : String
  amount : ℚ
  delivered : Bool := false
  deriving DecidableEq, Repr

/-- Embeds `Employee` dataclass with the source's field defaults. -/
structure Employee where
  name : String
  role : Role
  employee_type : EmployeeType
  vacation_days : ℤ := 25
  salary : Option ℚ := none
  hourly_rate : Option ℚ := none
  hours_worked : Option ℤ := none
  projects : List Project := []
  deriving DecidableEq, Repr

/-- Embeds `Employee.add_project`: appends a project to the employee's list. -/
def add_project (e : Employee) (p : Project) : Employee :=
  { e with projects := e.projects ++ [p] }

/-- Embeds `Employee.get_delivered_projects`: the sublist of delivered projects. -/
def get_delivered_projects (e : Employee) : List Project :=
  e.projects.filter (fun p => p.delivered)

/-- Python exceptions relevant to the embedded code, messages abstracted. -/
inductive PyError where
  | valueError
  | typeError
  deriving DecidableEq, Repr

/-- The three concrete `PaymentStrategy` classes, as a closed variant type. -/
inductive PaymentStrategy where
  | salariedPayment
  | hourlyPayment
  | freelancePayment
  deriving DecidableEq, Repr

/-- Embeds `calculate_payment` of each payment strategy.
`SalariedPayment` returns `employee.salary` verbatim, so an unset salary is
returned as `None` (`.ok none`), not raised.  `HourlyPayment` computes
`hourly_rate * hours_worked`, which in Python raises `TypeError` when either
operand is `None`.  `FreelancePayment` sums the delivered projects' amounts. -/
def calculate_payment : PaymentStrategy → Employee → Except PyError (Option ℚ)
  | .salariedPayment, e => .ok e.salary
  | .hourlyPayment, e =>
      match e.hourly_rate, e.hours_worked with
      | some r, some h => .ok (some (r * (h : ℚ)))
      | _, _ => .error .typeError
  | .freelancePayment, e =>
      .ok (some (((get_delivered_projects e).map Project.amount).sum))

/-- The five concrete `VacationPolicy` classes, as a closed variant type. -/
inductive VacationPolicy where
  | basicVacation
  | managerVacation
  | vpVacation
  | internVacation
  | hourlyVacation
  deriving DecidableEq, Repr

/-- Embeds `can_take_vacation` of each vacation policy. -/
def can_take_vacation : VacationPolicy → Employee → ℤ → Bool
  | .basicVacation, e, days => decide (e.vacation_days ≥ days)
  | .managerVacation, e, days => decide (e.vacation_days ≥ days)
  | .vpVacation, _, days => decide (days ≤ 5)
  | .internVacation, _, _ => false
  | .hourlyVacation, e, days => decide (e.vacation_days ≥ days)

/-- Embeds `can_payout_vacation` of each vacation policy. -/
def can_payout_vacation : VacationPolicy → Employee → ℤ → Bool
  | .basicVacation, e, days => decide (e.vacation_days ≥ days) && decide (days ≤ 5)
  | .managerVacation, e, days => decide (e.vacation_days ≥ days) && decide (days ≤ 10)
  | .vpVacation, _, days => decide (days ≤ 5)
  | .internVacation, _, _ => false
  | .hourlyVacation, e, days => decide (e.vacation_days ≥ days) && decide (days ≤ 5)

/-- Embeds `StrategyFactory.create_payment_strategy`.  The source's defensive
`else: raise ValueError` branch is unreachable over the closed enum. -/
def create_payment_strategy : EmployeeType → PaymentStrategy
  | .salaried => .salariedPayment
  | .hourly => .hourlyPayment
  | .freelancer => .freelancePayment

/-- Embeds `StrategyFactory.create_vacation_policy`: role checks first (intern,
manager, vice-president), then the compensation-type check for hourly,
otherwise the basic policy. -/
def create_vacation_policy (role : Role) (employee_type : EmployeeType) : VacationPolicy :=
  if role = Role.intern then .internVacation
  else if role = Role.manager then .managerVacation
  else if role = Role.vice_president then .vpVacation
  else if employee_type = EmployeeType.hourly then .hourlyVacation
  else .basicVacation

/-- One entry of `OperationLog._operations`.  The capture-time timestamp
(`datetime.now()`) carries no information used by any query or claim and is
omitted from the model. -/
structure LogEntry where
  op : String
  employee_name : Option String
  amount : Option ℚ
  details : Option String
  deriving DecidableEq, Repr

/-- Embeds `OperationLog.record`: appends one entry to the log list. -/
def record (log : List LogEntry) (op : String) (employee_name : Option String)
    (amount : Option ℚ) (details : Option String) : List LogEntry :=
  log ++ [{ op := op, employee_name := employee_name, amount := amount, details := details }]

/-- Python truthiness of the `employee_name : Optional[str]` argument in
`OperationLog.get_operations`: `None` and the empty string are falsy. -/
def name_truthy : Option String → Bool
  | none => false
  | some s => decide (s ≠ "")

/-- Embeds `OperationLog.get_operations`: `if employee_name:` filters by equality
with the entry's `employee_name`; a falsy argument returns (a copy of) the
whole list. -/
def get_operations (log : List LogEntry) (employee_name : Option String) : List LogEntry :=
  if name_truthy employee_name then
    log.filter (fun entry => decide (entry.employee_name = employee_name))
  else log

/-- The configuration dictionary passed to `PayEmployeeCommand`.  Each key
may be absent; `dict.get(key, default)` is modelled by the getter functions
below. -/
structure Config where
  salaried_bonus_percentage : Option ℚ := none
  hourly_bonus_threshold : Option ℚ := none
  hourly_bonus_amount : Option ℚ := none
  deriving DecidableEq, Repr

/-- Embeds `config.get("salaried_bonus_percentage", 0.1)`. -/
def Config.getSalariedBonusPercentage (c : Config) : ℚ :=
  c.salaried_bonus_percentage.getD (1 / 10)

/-- Embeds `config.get("hourly_bonus_threshold", 160)`. -/
def Config.getHourlyBonusThreshold (c : Config) : ℚ :=
  c.hourly_bonus_threshold.getD 160

/-- Embeds `config.get("hourly_bonus_amount", 100)`. -/
def Config.getHourlyBonusAmount (c : Config) : ℚ :=
  c.hourly_bonus_amount.getD 100

/-- Embeds `PayEmployeeCommand._calculate_bonus`.  `base` is the strategy's result,
which for a salaried employee with unset salary is `None`; the salaried
branch then computes `None * pct`, a `TypeError`.  The hourly branch compares
`hours_worked > threshold`, a `TypeError` when `hours_worked` is `None`. -/
def calculate_bonus (e : Employee) (config : Config) (base : Option ℚ) : Except PyError ℚ :=
  if e.role = Role.intern then .ok 0
  else if e.employee_type = EmployeeType.salaried then
    match base with
    | some b => .ok (b * config.getSalariedBonusPercentage)
    | none => .error .typeError
  else if e.employee_type = EmployeeType.hourly then
    match e.hours_worked with
    | some h => .ok (if (h : ℚ) > config.getHourlyBonusThreshold
                     then config.getHourlyBonusAmount else 0)
    | none => .error .typeError
  else .ok 0

/-- Embeds `PayEmployeeCommand.execute`: base payment, bonus, total, one `PAYMENT`
log entry, returns the total.  `base_payment + bonus` raises `TypeError` when
`base_payment` is `None` (reachable for a salaried employee with unset salary
and intern role, where the bonus branch returns `0.0` without touching
`base`). -/
def pay_execute (e : Employee) (strategy : PaymentStrategy) (config : Config)
    (log : List LogEntry) : Except PyError (ℚ × List LogEntry) :=
  match calculate_payment strategy e with
  | .error err => .error err
  | .ok base =>
    match calculate_bonus e config base with
    | .error err => .error err
    | .ok bonus =>
      match base with
      | none => .error .typeError
      | some b =>
        .ok (b + bonus,
             record log "PAYMENT" (some e.name) (some (b + bonus))
               (some (if bonus > 0 then "Base, Bonus" else "Base")))

/-- Embeds `GrantVacationCommand.execute`: the payout flag selects
`can_payout_vacation` or `can_take_vacation`; a failed check raises
`ValueError` before any mutation or logging; on success the balance is
decremented by `days` unless the role is vice-president, and exactly one
`VACATION_PAYOUT` / `VACATION_TAKEN` entry is recorded with `amount = days`. -/
def vac_execute (e : Employee) (policy : VacationPolicy) (days : ℤ) (payout : Bool)
    (log : List LogEntry) : Except PyError (Employee × List LogEntry) :=
  if payout then
    if can_payout_vacation policy e days then
      .ok (if e.role = Role.vice_president then e
             else { e with vacation_days := e.vacation_days - days },
           record log "VACATION_PAYOUT" (some e.name) (some (days : ℚ))
             (some "Paid out vacation days"))
    else .error .valueError
  else
    if can_take_vacation policy e days then
      .ok (if e.role = Role.vice_president then e
             else { e with vacation_days := e.vacation_days - days },
           record log "VACATION_TAKEN" (some e.name) (some (days : ℚ))
             (some "Took vacation days"))
    else .error .valueError

/-- Embeds `Company.add_project_to_freelancer`: raises `ValueError` for any
non-freelancer employee; otherwise creates the project with
`delivered=True` and appends it. -/
def add_project_to_freelancer (e : Employee) (project_name : String) (amount : ℚ) :
    Except PyError Employee :=
  if e.employee_type ≠ EmployeeType.freelancer then .error .valueError
  else .ok (add_project e { name := project_name, amount := amount, delivered := true })


/-! ## Sample inputs used by witnesses and counterexamples -/

/-- An hourly-paid manager (for C1). -/
def empC1 : Employee :=
  { name := "hm", role := Role.manager, employee_type := EmployeeType.hourly,
    hourly_rate := some 20, hours_worked := some 100 }

/-- A salaried vice-president (for C3). -/
def empC3 : Employee :=
  { name := "carol", role := Role.vice_president, employee_type := EmployeeType.salaried,
    salary := some 1000 }

/-! ## Claims -/

/-- C1: vacation policy selection is role-first: every employee whose role is
Manager gets the Manager policy from the factory regardless of compensation
type, and that policy's payout check is exactly
`balance >= days AND days <= 10` (the Manager rule, not the Hourly cap-5
rule). -/
theorem manager_role_overrides_hourly_type (t : EmployeeType) (e : Employee) (days : ℤ)
    (h : e.role = Role.manager) :
    create_vacation_policy e.role t = VacationPolicy.managerVacation ∧
    (can_payout_vacation (create_vacation_policy e.role t) e days = true ↔
       e.vacation_days ≥ days ∧ days ≤ 10) := by
  rw [h]
  constructor
  · simp [create_vacation_policy]
  · simp [create_vacation_policy, can_payout_vacation]

/-- Witness for C1: the hourly manager `empC1` at a concrete 7-day payout. -/
theorem manager_role_overrides_hourly_type_witness :
    create_vacation_policy empC1.role EmployeeType.hourly = VacationPolicy.managerVacation ∧
    (can_payout_vacation (create_vacation_policy empC1.role EmployeeType.hourly) empC1 7 = true ↔
       empC1.vacation_days ≥ 7 ∧ (7 : ℤ) ≤ 10) :=
  manager_role_overrides_hourly_type EmployeeType.hourly empC1 7 rfl

/-- C2: the vacation command is atomic: the selected check (`can_payout` when
the payout flag is set, else `can_take`) is the sole gate; when it is false
the command fails with a `ValueError` (PolicyViolation) and returns no new
state (balance and log unchanged); when it is true the command returns the
employee with the balance decremented by `days` (unchanged for a
vice-president) together with the log extended by exactly one entry. -/
theorem vacation_command_atomic (e : Employee) (p : VacationPolicy) (days : ℤ)
    (payout : Bool) (log : List LogEntry) :
    vac_execute e p days payout log =
      (if (if payout then can_payout_vacation p e days else can_take_vacation p e days)
       then Except.ok ((if e.role = Role.vice_president then e
                          else { e with vacation_days := e.vacation_days - days }),
                       log ++ [{ op := if payout then "VACATION_PAYOUT" else "VACATION_TAKEN",
                                 employee_name := some e.name,
                                 amount := some ((days : ℤ) : ℚ),
                                 details := some (if payout then "Paid out vacation days"
                                                  else "Took vacation days") }])
       else Except.error PyError.valueError) := by
  cases payout <;> rfl

/-- C3: a vice-president's vacation balance is never changed by the vacation
command: whenever the command returns successfully for a VP employee, the
returned employee has the same balance (failure returns no new state at
all). -/
theorem vp_balance_never_decremented (e : Employee) (p : VacationPolicy) (days : ℤ)
    (payout : Bool) (log : List LogEntry) (e2 : Employee) (log2 : List LogEntry)
    (hvp : e.role = Role.vice_president)
    (hok : vac_execute e p days payout log = Except.ok (e2, log2)) :
    e2.vacation_days = e.vacation_days := by
  unfold vac_execute at hok
  rw [hvp] at hok
  cases payout <;> simp only [Bool.false_eq_true, if_false, if_true] at hok <;>
    split at hok <;> simp_all

/-- Witness for C3: VP `empC3` takes 3 days; the command succeeds and the
balance is unchanged. -/
theorem vp_balance_never_decremented_witness :
    vac_execute empC3 VacationPolicy.vpVacation 3 false [] =
      Except.ok (empC3, record [] "VACATION_TAKEN" (some "carol") (some ((3 : ℤ) : ℚ))
                          (some "Took vacation days")) ∧
    empC3.vacation_days = empC3.vacation_days :=
  ⟨rfl, vp_balance_never_decremented empC3 VacationPolicy.vpVacation 3 false []
      empC3 (record [] "VACATION_TAKEN" (some "carol") (some ((3 : ℤ) : ℚ))
        (some "Took vacation days")) rfl rfl⟩

/-- A salaried employee whose salary field is unset (for C4). -/
def empC4 : Employee :=
  { name := "s", role := Role.manager, employee_type := EmployeeType.salaried }

/-- An hourly employee whose rate and hours fields are unset (for C4). -/
def empC4h : Employee :=
  { name := "h", role := Role.manager, employee_type := EmployeeType.hourly }

/-- C4 counterexample: for a salaried employee with no salary, the payment
rule does not fail — it returns the missing value (`None`) as an ordinary,
non-error result, contradicting the claim that compute fails rather than
returning a value. -/
theorem salaried_missing_salary_returns_none :
    (calculate_payment (create_payment_strategy empC4.employee_type) empC4).isOk = true ∧
    calculate_payment (create_payment_strategy empC4.employee_type) empC4 =
      Except.ok none :=
  ⟨rfl, rfl⟩

/-- C4 amended: the payment rule never substitutes zero for a missing field:
an hourly employee with unset rate or hours makes compute fail (Python
`TypeError` on `None` arithmetic), but a salaried employee with unset salary
makes compute return the missing value (`None`) itself rather than fail. -/
theorem payment_missing_field_behavior (e : Employee) :
    (e.employee_type = EmployeeType.salaried → e.salary = none →
       calculate_payment (create_payment_strategy e.employee_type) e = Except.ok none) ∧
    (e.employee_type = EmployeeType.hourly →
       (e.hourly_rate = none ∨ e.hours_worked = none) →
       calculate_payment (create_payment_strategy e.employee_type) e =
         Except.error PyError.typeError) := by
  constructor
  · intro ht hs
    rw [ht]
    simp [create_payment_strategy, calculate_payment, hs]
  · intro ht hmiss
    rw [ht]
    simp only [create_payment_strategy, calculate_payment]
    rcases hmiss with h | h
    · rw [h]
    · rw [h]
      cases e.hourly_rate <;> rfl

/-- Witness for C4 (amended): the hourly employee `empC4h` with unset fields
makes compute fail with a `TypeError`. -/
theorem payment_missing_field_behavior_witness :
    calculate_payment (create_payment_strategy empC4h.employee_type) empC4h =
      Except.error PyError.typeError :=
  (payment_missing_field_behavior empC4h).2 rfl (Or.inl rfl)

/-- An intern employee (for C5). -/
def empC5 : Employee :=
  { name := "i", role := Role.intern, employee_type := EmployeeType.salaried,
    salary := some 100 }

/-- A salaried manager (for C5 witness). -/
def empC5w : Employee :=
  { name := "m", role := Role.manager, employee_type := EmployeeType.salaried,
    salary := some 10 }

/-- C5 counterexample: an intern employee's 0-day request does not succeed —
the intern policy's checks return `False` for every day count, so the
command fails with a `ValueError` (PolicyViolation), contradicting
"a 0-day request always succeeds for every employee". -/
theorem zero_days_intern_fails :
    vac_execute empC5 (create_vacation_policy empC5.role empC5.employee_type) 0 false [] =
      Except.error PyError.valueError :=
  rfl

/-- C5 amended: for every employee whose role is not Intern and whose
vacation balance is non-negative, a 0-day request succeeds for both values
of the payout flag, leaves the employee (in particular the balance)
unchanged, and appends exactly one log entry. -/
theorem zero_days_succeeds_for_non_intern (e : Employee) (payout : Bool)
    (log : List LogEntry) (hrole : e.role ≠ Role.intern) (hbal : 0 ≤ e.vacation_days) :
    vac_execute e (create_vacation_policy e.role e.employee_type) 0 payout log =
      Except.ok (e, log ++ [{ op := if payout then "VACATION_PAYOUT" else "VACATION_TAKEN",
                              employee_name := some e.name,
                              amount := some ((0 : ℤ) : ℚ),
                              details := some (if payout then "Paid out vacation days"
                                               else "Took vacation days") }]) := by
  obtain ⟨n, r, t, vd, sal, hrate, hw, prj⟩ := e
  cases r
  · exact absurd rfl hrole
  · cases payout <;>
      simp [vac_execute, create_vacation_policy, can_take_vacation, can_payout_vacation,
            record, hbal]
  · cases payout <;>
      simp [vac_execute, create_vacation_policy, can_take_vacation, can_payout_vacation,
            record]

/-- Witness for C5 (amended): the manager `empC5w` requests a 0-day payout;
the command succeeds, the employee is unchanged, one entry is logged. -/
theorem zero_days_succeeds_for_non_intern_witness :
    vac_execute empC5w (create_vacation_policy empC5w.role empC5w.employee_type) 0 true [] =
      Except.ok (empC5w, [] ++ [{ op := if true then "VACATION_PAYOUT" else "VACATION_TAKEN",
                                  employee_name := some empC5w.name,
                                  amount := some ((0 : ℤ) : ℚ),
                                  details := some (if true then "Paid out vacation days"
                                                   else "Took vacation days") }]) :=
  zero_days_succeeds_for_non_intern empC5w true [] (by decide) (by decide)

/-- Alice from the end-to-end spec example: hourly manager, rate 20,
170 hours worked (for C6). -/
def empC6 : Employee :=
  { name := "alice", role := Role.manager, employee_type := EmployeeType.hourly,
    hourly_rate := some 20, hours_worked := some 170 }

/-- C6: for every hourly employee whose role is not Intern and whose rate and
hours fields are set, the pay command returns base + bonus where base is
rate times hours and the bonus is exactly the configured hourly bonus amount
when hours worked strictly exceed the threshold and 0 otherwise (so the
boundary hours = threshold yields bonus 0), and it appends exactly one
PAYMENT log entry carrying that total. -/
theorem hourly_bonus_correct (e : Employee) (config : Config) (log : List LogEntry)
    (r : ℚ) (hw : ℤ)
    (htype : e.employee_type = EmployeeType.hourly) (hrole : e.role ≠ Role.intern)
    (hr : e.hourly_rate = some r) (hh : e.hours_worked = some hw) :
    (∃ d, pay_execute e (create_payment_strategy e.employee_type) config log =
       Except.ok (r * (hw : ℚ) +
                    (if (hw : ℚ) > config.getHourlyBonusThreshold
                     then config.getHourlyBonusAmount else 0),
                  log ++ [{ op := "PAYMENT", employee_name := some e.name,
                            amount := some (r * (hw : ℚ) +
                              (if (hw : ℚ) > config.getHourlyBonusThreshold
                               then config.getHourlyBonusAmount else 0)),
                            details := d }])) ∧
    ((hw : ℚ) = config.getHourlyBonusThreshold →
       (if (hw : ℚ) > config.getHourlyBonusThreshold
        then config.getHourlyBonusAmount else 0) = 0) := by
  constructor
  · refine ⟨some (if (if (hw : ℚ) > config.getHourlyBonusThreshold
                      then config.getHourlyBonusAmount else 0) > 0
                  then "Base, Bonus" else "Base"), ?_⟩
    rw [htype]
    simp only [pay_execute, create_payment_strategy, calculate_payment, calculate_bonus,
               hr, hh, htype, record]
    rw [if_neg hrole]
    simp
  · intro hb
    rw [hb]
    simp

/-- Witness for C6: Alice with the default configuration (threshold 160,
bonus 100) is paid 20 times 170 plus 100, with one PAYMENT entry. -/
theorem hourly_bonus_correct_witness :
    (∃ d, pay_execute empC6 (create_payment_strategy empC6.employee_type) {} [] =
       Except.ok (20 * ((170 : ℤ) : ℚ) +
                    (if ((170 : ℤ) : ℚ) > Config.getHourlyBonusThreshold {}
                     then Config.getHourlyBonusAmount {} else 0),
                  [] ++ [{ op := "PAYMENT", employee_name := some empC6.name,
                           amount := some (20 * ((170 : ℤ) : ℚ) +
                             (if ((170 : ℤ) : ℚ) > Config.getHourlyBonusThreshold {}
                              then Config.getHourlyBonusAmount {} else 0)),
                           details := d }])) ∧
    (((170 : ℤ) : ℚ) = Config.getHourlyBonusThreshold {} →
       (if ((170 : ℤ) : ℚ) > Config.getHourlyBonusThreshold {}
        then Config.getHourlyBonusAmount {} else 0) = 0) :=
  hourly_bonus_correct empC6 {} [] 20 170 rfl (by decide) rfl rfl

/-- Sanity evaluation of the end-to-end example: Alice's total under the
default configuration is 3500. -/
theorem alice_total_is_3500 :
    pay_execute empC6 (create_payment_strategy empC6.employee_type) {} [] =
      Except.ok (3500, [{ op := "PAYMENT", employee_name := some "alice",
                          amount := some 3500, details := some "Base, Bonus" }]) := by
  simp only [pay_execute, create_payment_strategy, calculate_payment, calculate_bonus,
             empC6, record, Config.getHourlyBonusThreshold, Config.getHourlyBonusAmount,
             Config.getSalariedBonusPercentage]
  rw [if_neg (by decide : ¬ Role.manager = Role.intern),
      if_neg (by decide : ¬ EmployeeType.hourly = EmployeeType.salaried)]
  norm_num

/-- A freelancer with one delivered and one undelivered project (for C7). -/
def empC7 : Employee :=
  { name := "f", role := Role.manager, employee_type := EmployeeType.freelancer,
    projects := [{ name := "a", amount := 100, delivered := true },
                 { name := "b", amount := 50, delivered := false }] }

/-- C7: for every freelance employee the payment base is the sum of the
amounts of exactly the projects whose delivered flag is true, and appending
an undelivered project to the project list never changes that base. -/
theorem freelance_payment_delivered_sum (e : Employee) (p : Project)
    (htype : e.employee_type = EmployeeType.freelancer) (hund : p.delivered = false) :
    calculate_payment (create_payment_strategy e.employee_type) e =
      Except.ok (some (((e.projects.filter (fun q => q.delivered)).map Project.amount).sum)) ∧
    calculate_payment (create_payment_strategy e.employee_type) (add_project e p) =
      calculate_payment (create_payment_strategy e.employee_type) e := by
  rw [htype]
  constructor
  · simp [create_payment_strategy, calculate_payment, get_delivered_projects]
  · simp [create_payment_strategy, calculate_payment, get_delivered_projects, add_project,
          List.filter_append, hund]

/-- Witness for C7: the freelancer `empC7` has base 100 (only the delivered
project counts) and adding the undelivered project c leaves the base
unchanged. -/
theorem freelance_payment_delivered_sum_witness :
    calculate_payment (create_payment_strategy empC7.employee_type) empC7 =
      Except.ok (some (((empC7.projects.filter (fun q => q.delivered)).map Project.amount).sum)) ∧
    calculate_payment (create_payment_strategy empC7.employee_type)
        (add_project empC7 { name := "c", amount := 30, delivered := false }) =
      calculate_payment (create_payment_strategy empC7.employee_type) empC7 :=
  freelance_payment_delivered_sum empC7 { name := "c", amount := 30, delivered := false }
    rfl rfl

/-- A one-entry log whose entry belongs to employee a (for C8). -/
def lgC8 : List LogEntry :=
  [{ op := "PAYMENT", employee_name := some "a", amount := some 1, details := none }]

/-- C8 counterexample: querying with the empty string as the employee-name
filter returns the whole log (Python truthiness treats the empty string like
no filter), even though no entry's employee name equals the empty string —
contradicting "a filtered query returns exactly the matching entries". -/
theorem empty_name_filter_returns_all :
    get_operations lgC8 (some "") = lgC8 ∧
    lgC8.filter (fun entry => decide (entry.employee_name = some "")) = [] :=
  ⟨rfl, rfl⟩

/-- C8 amended: a query with no filter (or with the falsy empty-string name)
returns all entries in insertion order, and a query filtered by a non-empty
employee name returns exactly the entries whose employee name equals the
filter, preserving their relative insertion order. -/
theorem get_operations_query_spec (log : List LogEntry) (s : String) :
    get_operations log none = log ∧
    get_operations log (some "") = log ∧
    (s ≠ "" → get_operations log (some s) =
       log.filter (fun entry => decide (entry.employee_name = some s))) := by
  refine ⟨rfl, rfl, fun h => ?_⟩
  simp [get_operations, name_truthy, h]

/-- Witness for C8 (amended): filtering `lgC8` by the non-empty name a
returns exactly the matching entries. -/
theorem get_operations_query_spec_witness :
    get_operations lgC8 (some "a") =
      lgC8.filter (fun entry => decide (entry.employee_name = some "a")) :=
  (get_operations_query_spec lgC8 "a").2.2 (by decide)

/-- A manager with a negative vacation balance (for the C9 counterexample). -/
def empC9 : Employee :=
  { name := "n", role := Role.manager, employee_type := EmployeeType.salaried,
    salary := some 10, vacation_days := -10 }

/-- A manager with the default balance 25 (for the C9 witness). -/
def empC9w : Employee :=
  { name := "w", role := Role.manager, employee_type := EmployeeType.salaried,
    salary := some 10 }

/-- C9 counterexample: the employee `empC9` satisfies all of the claim's
hypotheses (selected policy is Manager, days = -5 < 0), yet the command
fails with a PolicyViolation because the balance check -10 >= -5 is false —
so a negative-days request does not always succeed. -/
theorem negative_days_request_can_fail :
    (create_vacation_policy empC9.role empC9.employee_type = VacationPolicy.managerVacation ∨
     create_vacation_policy empC9.role empC9.employee_type = VacationPolicy.hourlyVacation ∨
     create_vacation_policy empC9.role empC9.employee_type = VacationPolicy.basicVacation) ∧
    (-5 : ℤ) < 0 ∧
    vac_execute empC9 (create_vacation_policy empC9.role empC9.employee_type) (-5) false [] =
      Except.error PyError.valueError :=
  ⟨Or.inl rfl, by decide, rfl⟩

/-- C9 amended: for every employee whose factory-selected policy is Manager,
Hourly, or Basic and whose vacation balance is non-negative, every request
with days < 0 succeeds for both take and payout, appends exactly one log
entry, and strictly increases the balance by -days. -/
theorem negative_days_increase_balance (e : Employee) (days : ℤ) (payout : Bool)
    (log : List LogEntry)
    (hpol : create_vacation_policy e.role e.employee_type = VacationPolicy.managerVacation ∨
            create_vacation_policy e.role e.employee_type = VacationPolicy.hourlyVacation ∨
            create_vacation_policy e.role e.employee_type = VacationPolicy.basicVacation)
    (hbal : 0 ≤ e.vacation_days) (hdays : days < 0) :
    vac_execute e (create_vacation_policy e.role e.employee_type) days payout log =
      Except.ok ({ e with vacation_days := e.vacation_days - days },
                 log ++ [{ op := if payout then "VACATION_PAYOUT" else "VACATION_TAKEN",
                           employee_name := some e.name,
                           amount := some ((days : ℤ) : ℚ),
                           details := some (if payout then "Paid out vacation days"
                                            else "Took vacation days") }]) ∧
    e.vacation_days < e.vacation_days - days := by
  have hle : days ≤ e.vacation_days := le_trans (le_of_lt hdays) hbal
  have h10 : days ≤ (10 : ℤ) := by omega
  refine ⟨?_, by omega⟩
  cases hr : e.role
  · simp [create_vacation_policy, hr] at hpol
  · cases payout <;>
      simp [vac_execute, create_vacation_policy, can_take_vacation, can_payout_vacation,
            record, hr, hle, h10]
  · simp [create_vacation_policy, hr] at hpol

/-- Witness for C9 (amended): manager `empC9w` (balance 25) requests a payout
of -3 days; the command succeeds and the balance rises to 28. -/
theorem negative_days_increase_balance_witness :
    vac_execute empC9w (create_vacation_policy empC9w.role empC9w.employee_type)
        (-3) true [] =
      Except.ok ({ empC9w with vacation_days := empC9w.vacation_days - (-3) },
                 [] ++ [{ op := if true then "VACATION_PAYOUT" else "VACATION_TAKEN",
                          employee_name := some empC9w.name,
                          amount := some (((-3) : ℤ) : ℚ),
                          details := some (if true then "Paid out vacation days"
                                           else "Took vacation days") }]) ∧
    empC9w.vacation_days < empC9w.vacation_days - (-3) :=
  negative_days_increase_balance empC9w (-3) true [] (Or.inl rfl) (by decide) (by decide)

/-- A freelancer with one delivered project of amount 40 (for C10). -/
def empC10 : Employee :=
  { name := "f2", role := Role.manager, employee_type := EmployeeType.freelancer,
    projects := [{ name := "p1", amount := 40, delivered := true }] }

/-- A salaried employee, not a freelancer (for C10). -/
def empC10s : Employee :=
  { name := "s2", role := Role.manager, employee_type := EmployeeType.salaried,
    salary := some 10 }

/-- C10: the company façade's add-project operation creates the project with
delivered already true, so for a freelance employee it increases the
freelance payment base by exactly the project's amount; for any
non-freelancer it fails with a ValueError. -/
theorem add_project_keeps_delivered_true (e : Employee) (n : String) (a : ℚ) :
    (e.employee_type = EmployeeType.freelancer →
       add_project_to_freelancer e n a =
         Except.ok (add_project e { name := n, amount := a, delivered := true }) ∧
       calculate_payment PaymentStrategy.freelancePayment
           (add_project e { name := n, amount := a, delivered := true }) =
         Except.ok (some ((((get_delivered_projects e).map Project.amount).sum) + a))) ∧
    (e.employee_type ≠ EmployeeType.freelancer →
       add_project_to_freelancer e n a = Except.error PyError.valueError) := by
  constructor
  · intro h
    constructor
    · simp [add_project_to_freelancer, h]
    · simp [calculate_payment, get_delivered_projects, add_project, List.filter_append]
  · intro h
    simp [add_project_to_freelancer, h]

/-- Witness for C10: adding a 7-amount project to freelancer `empC10` raises
the base by 7; the same operation on the salaried `empC10s` fails. -/
theorem add_project_keeps_delivered_true_witness :
    (add_project_to_freelancer empC10 "np" 7 =
       Except.ok (add_project empC10 { name := "np", amount := 7, delivered := true }) ∧
     calculate_payment PaymentStrategy.freelancePayment
         (add_project empC10 { name := "np", amount := 7, delivered := true }) =
       Except.ok (some ((((get_delivered_projects empC10).map Project.amount).sum) + 7))) ∧
    add_project_to_freelancer empC10s "np" 7 = Except.error PyError.valueError :=
  ⟨(add_project_keeps_delivered_true empC10 "np" 7).1 rfl,
   (add_project_keeps_delivered_true empC10s "np" 7).2 (by decide)⟩

end Employees
